import Mathlib

/-!
# Verification of `scripts/build-ffmpeg.py`

A shallow embedding of the ffmpeg build orchestrator script.  The script is
straight-line Python; we model it as pure functions:

* the filesystem is a list of existing paths (strings), relative to the
  working directory (the script calls `os.path.abspath` on `build`,
  `patches`, `source`, `output`; we keep the relative names, which is a
  uniform renaming);
* every `run(...)` shell-out is an argv list (`List String`); an external
  oracle `world : List String → Bool` decides whether a command succeeds;
* `subprocess.run(cmd, check=True)` semantics: a failing command raises,
  aborting the whole script with a non-zero exit;
* the only tracked filesystem effects of external commands are the ones the
  claims depend on: a successful `curl` download creates its output file and
  the final `tar czvf` creates the output archive.  (The `build` and
  destination trees are deleted at start-up by the script itself, so their
  contents never survive into the decisions the script makes.)
-/

namespace BuildFFmpeg

/-- Operating systems the script supports (`platform.system()` values
`"Linux"`, `"Darwin"`, `"Windows"`; any other value raises). -/
inductive OS where
  | linux
  | darwin
  | windows
deriving DecidableEq, Repr

/-- The ambient process environment the script consults:
`platform.system()`, `platform.machine()`, the optional `ARCHFLAGS`
variable, the pointer width probe `struct.calcsize("P") * 8 == 64`, and
whether `CIBUILDWHEEL` equals `"1"`. -/
structure Env where
  system : OS
  machine : String
  archflags : Option String
  ptr64 : Bool
  cibuildwheel : Bool
deriving DecidableEq, Repr

/-- `get_platform()`: platform tag used in the output archive name. -/
def getPlatform (e : Env) : String :=
  match e.system with
  | OS.linux => "manylinux_" ++ e.machine
  | OS.darwin =>
      let m := match e.archflags with
        | some a => (a.splitOn " ").getD 1 ""
        | none => e.machine
      "macosx_" ++ m
  | OS.windows => if e.ptr64 then "win_amd64" else "win32"

/-- The output directory: `/output` when running Linux wheels under
`CIBUILDWHEEL`, else `output` in the working directory. -/
def outputDirOf (e : Env) : String :=
  if e.system = OS.linux ∧ e.cibuildwheel then "/output" else "output"

/-- The computed output archive path `output_tarball`. -/
def outputTarballOf (e : Env) : String :=
  outputDirOf e ++ "/ffmpeg-" ++ getPlatform e ++ ".tar.gz"

/-! ## Filesystem model -/

/-- Prefix test on the underlying character lists (extensionally
`String.isPrefixOf`, but structurally recursive so that proofs can
evaluate it). -/
def strHasPfx (d q : String) : Bool :=
  d.data.isPrefixOf q.data

/-- Suffix test on the underlying character lists (extensionally
`String.endsWith`). -/
def strHasSfx (sfx q : String) : Bool :=
  sfx.data.isSuffixOf q.data

/-- `q` lies inside the directory tree rooted at `d` (it is `d` itself or a
path below it). -/
def underDir (d q : String) : Bool :=
  q == d || strHasPfx (d ++ "/") q

/-- `shutil.rmtree d`: every path inside the tree rooted at `d` disappears. -/
def removeTree (fs : List String) (d : String) : List String :=
  fs.filter fun q => !(underDir d q)

/-- `os.mkdir d` (the script only calls it when `d` is absent). -/
def mkdirFs (fs : List String) (d : String) : List String :=
  fs ++ [d]

/-- One iteration of the removal loop: `if os.path.exists(d): shutil.rmtree(d)`. -/
def rmStep (d : String) (fs : List String) : List String :=
  if d ∈ fs then removeTree fs d else fs

/-- One iteration of the creation loop: `if not os.path.exists(d): os.mkdir(d)`. -/
def mkStep (d : String) (fs : List String) : List String :=
  if d ∈ fs then fs else mkdirFs fs d

/-- The module-level directory setup:

```
for d in [build_dir, dest_dir]:
    if os.path.exists(d): shutil.rmtree(d)
for d in [build_dir, output_dir, source_dir]:
    if not os.path.exists(d): os.mkdir(d)
```
-/
def setupDirs (destDir outDir : String) (fs : List String) : List String :=
  mkStep "source" (mkStep outDir (mkStep "build" (rmStep destDir (rmStep "build" fs))))

/-! ## Package descriptors

The script has no package data structure; it is a straight line of
`extract`/`build` calls.  We record each call site as a descriptor, in the
textual order of the script, together with the dependency comments that
annotate the source (`# build vorbis (requires ogg)` and the ffmpeg
`--enable-*` flags), restricted to names that are themselves built. -/

/-- Which build system a package's call site uses. -/
inductive BuildKind where
  | autotools (args : List String)
  | cmake (srcArg : String) (extra : List String) (parallelMake : Bool)
  | meson
deriving DecidableEq, Repr

/-- One `extract` + build call site of the script. -/
structure Pkg where
  name : String
  url : String
  stripComponents : Nat
  preCmds : List (List String)
  kind : BuildKind
  requires : List String
deriving DecidableEq, Repr

/-- Abbreviation for the common case: autotools, strip 1, no extra cmds. -/
def autoPkg (name url : String) (args : List String) (reqs : List String) : Pkg :=
  ⟨name, url, 1, [], BuildKind.autotools args, reqs⟩

/-- `url.split("/")[-1]`: the local archive filename, i.e. the characters
after the last `/` of the url (the whole url when it has no `/`). -/
def tarballName (url : String) : String :=
  ⟨url.data.foldl (fun acc c => if c = '/' then [] else acc ++ [c]) []⟩

/-- The archive's path inside the persistent `source` directory. -/
def tarballPath (url : String) : String :=
  "source/" ++ tarballName url

/-- The `curl` download command for a source url. -/
def curlCmd (url : String) : List String :=
  ["curl", "-L", "-o", tarballPath url, url]

/-- The `cmake_args` list (plus `CMAKE_INSTALL_NAME_DIR` on macOS). -/
def cmakeArgsOf (sys : OS) (destDir : String) : List String :=
  ["-DCMAKE_INSTALL_LIBDIR=lib", "-DCMAKE_INSTALL_PREFIX=" ++ destDir] ++
    (if sys = OS.darwin then ["-DCMAKE_INSTALL_NAME_DIR=" ++ destDir ++ "/lib"] else [])

/-- Commands issued by `extract(package, url, strip_components)` given the
filesystem state: download only when the archive is absent, extract, apply
the patch when `patches/<name>.patch` exists. -/
def extractCmds (fs : List String) (p : Pkg) : List (List String) :=
  (if tarballPath p.url ∈ fs then [] else [curlCmd p.url]) ++
    [["tar", "xf", tarballPath p.url, "-C", "build/" ++ p.name,
      "--strip-components", toString p.stripComponents]] ++
    (if ("patches/" ++ p.name ++ ".patch") ∈ fs
      then [["patch", "-d", "build/" ++ p.name, "-i",
              "patches/" ++ p.name ++ ".patch", "-p1"]]
      else [])

/-- Commands issued by the build phase of one package: `build(...)` for
autotools, the inline cmake/meson sequences otherwise. -/
def buildCmds (destDir : String) (cmakeArgs : List String) (p : Pkg) : List (List String) :=
  match p.kind with
  | BuildKind.autotools args =>
      [["./configure"] ++ args ++
        ["--disable-static", "--enable-shared", "--prefix=" ++ destDir],
       ["make", "-j"],
       ["make", "install"]]
  | BuildKind.cmake srcArg extra parallelMake =>
      [["cmake", srcArg] ++ cmakeArgs ++ extra,
       if parallelMake then ["make", "-j"] else ["make"],
       ["make", "install"]]
  | BuildKind.meson =>
      [["meson", "..", "--libdir=lib", "--prefix=" ++ destDir],
       ["ninja"],
       ["ninja", "install"]]

/-- All commands of one package's log group: extract, any inline pre-build
commands (lame's `sed`), then the build. -/
def pkgCmds (fs : List String) (destDir : String) (cmakeArgs : List String)
    (p : Pkg) : List (List String) :=
  extractCmds fs p ++ p.preCmds ++ buildCmds destDir cmakeArgs p

/-- The ffmpeg configure arguments (fixed in the script). -/
def ffmpegConfigureArgs : List String :=
  ["--disable-doc", "--disable-libxcb", "--enable-fontconfig", "--enable-gmp",
   "--enable-gnutls", "--enable-gpl", "--enable-libaom", "--enable-libass",
   "--enable-libbluray", "--enable-libdav1d", "--enable-libfreetype",
   "--enable-libmp3lame", "--enable-libopencore-amrnb",
   "--enable-libopencore-amrwb", "--enable-libopenjpeg", "--enable-libopus",
   "--enable-libspeex", "--enable-libtheora", "--enable-libtwolame",
   "--enable-libvorbis", "--enable-libwavpack", "--enable-libx264",
   "--enable-libx265", "--enable-libxml2", "--enable-libxvid",
   "--enable-lzma", "--enable-version3", "--enable-zlib"]

/-- The packages the script builds, in the script's textual order, for a
given system.  `requires` records the dependency comments of the source
(restricted to names built by the script itself). -/
def packages (sys : OS) (destDir : String) : List Pkg :=
  [autoPkg "gperf" "http://ftp.gnu.org/pub/gnu/gperf/gperf-3.1.tar.gz" [] [],
   autoPkg "nasm" "https://www.nasm.us/pub/nasm/releasebuilds/2.14.02/nasm-2.14.02.tar.bz2" [] [],
   autoPkg "xz" "https://tukaani.org/xz/xz-5.2.5.tar.bz2" [] [],
   autoPkg "gmp" "https://gmplib.org/download/gmp/gmp-6.2.0.tar.xz" [] [],
   autoPkg "png" "http://deb.debian.org/debian/pool/main/libp/libpng1.6/libpng1.6_1.6.37.orig.tar.gz" [] [],
   autoPkg "xml2" "ftp://xmlsoft.org/libxml2/libxml2-sources-2.9.10.tar.gz" ["--without-python"] ["xz"],
   autoPkg "unistring" "https://ftp.gnu.org/gnu/libunistring/libunistring-0.9.10.tar.gz" [] []] ++
  (if sys = OS.darwin then
    [autoPkg "gettext" "https://ftp.gnu.org/pub/gnu/gettext/gettext-0.20.2.tar.gz"
      ["--disable-java"] ["unistring", "xml2"]]
   else []) ++
  [autoPkg "freetype" "https://download.savannah.gnu.org/releases/freetype/freetype-2.10.1.tar.gz" [] ["png"],
   autoPkg "fontconfig" "https://www.freedesktop.org/software/fontconfig/release/fontconfig-2.13.1.tar.bz2"
     ["--enable-libxml2"] ["freetype", "xml2"],
   autoPkg "fribidi" "https://github.com/fribidi/fribidi/releases/download/v1.0.9/fribidi-1.0.9.tar.xz" [] [],
   autoPkg "nettle" "https://ftp.gnu.org/gnu/nettle/nettle-3.6.tar.gz"
     ["--disable-documentation", "--libdir=" ++ destDir ++ "/lib"] ["gmp"],
   autoPkg "gnutls" "https://www.gnupg.org/ftp/gcrypt/gnutls/v3.6/gnutls-3.6.15.tar.xz"
     ["--disable-doc", "--disable-tests", "--disable-tools",
      "--with-included-libtasn1", "--without-p11-kit"] ["nettle", "unistring"],
   ⟨"aom",
     "https://aomedia.googlesource.com/aom/+archive/a6091ebb8a7da245373e56a005f2bb95be064e03.tar.gz",
     0, [], BuildKind.cmake ".." ["-DBUILD_SHARED_LIBS=1"] false, []⟩,
   autoPkg "ass" "https://github.com/libass/libass/releases/download/0.14.0/libass-0.14.0.tar.gz"
     [] ["freetype", "fribidi"],
   autoPkg "bluray" "https://download.videolan.org/pub/videolan/libbluray/1.1.2/libbluray-1.1.2.tar.bz2"
     ["--disable-bdjava-jar"] ["fontconfig"],
   ⟨"dav1d", "https://code.videolan.org/videolan/dav1d/-/archive/0.9.2/dav1d-0.9.2.tar.bz2",
     1, [], BuildKind.meson, ["nasm"]⟩,
   ⟨"lame", "http://deb.debian.org/debian/pool/main/l/lame/lame_3.100.orig.tar.gz",
     1, [["sed", "-i.bak", "/^lame_init_old$/d", "lame/include/libmp3lame.sym"]],
     BuildKind.autotools [], []⟩,
   autoPkg "ogg" "http://downloads.xiph.org/releases/ogg/libogg-1.3.5.tar.gz" [] [],
   autoPkg "opencore-amr" "http://deb.debian.org/debian/pool/main/o/opencore-amr/opencore-amr_0.1.5.orig.tar.gz" [] [],
   ⟨"openjpeg", "https://github.com/uclouvain/openjpeg/archive/v2.3.1.tar.gz",
     1, [], BuildKind.cmake "." [] true, []⟩,
   autoPkg "opus" "https://archive.mozilla.org/pub/opus/opus-1.3.1.tar.gz"
     ["--disable-extra-programs"] [],
   autoPkg "speex" "http://downloads.xiph.org/releases/speex/speex-1.2.0.tar.gz"
     ["--disable-binaries"] [],
   autoPkg "twolame" "http://deb.debian.org/debian/pool/main/t/twolame/twolame_0.4.0.orig.tar.gz" [] [],
   autoPkg "vorbis" "http://downloads.xiph.org/releases/vorbis/libvorbis-1.3.6.tar.gz" [] ["ogg"],
   autoPkg "theora" "http://downloads.xiph.org/releases/theora/libtheora-1.1.1.tar.gz"
     ["--disable-examples", "--disable-spec"] ["vorbis"],
   autoPkg "wavpack" "http://www.wavpack.com/wavpack-5.3.0.tar.bz2" [] [],
   autoPkg "x264" "https://code.videolan.org/videolan/x264/-/archive/master/x264-master.tar.bz2" [] [],
   ⟨"x265", "http://ftp.videolan.org/pub/videolan/x265/x265_3.2.1.tar.gz",
     1, [], BuildKind.cmake "../source" [] true, []⟩,
   autoPkg "xvid" "https://downloads.xvid.com/downloads/xvidcore-1.3.7.tar.gz" [] [],
   autoPkg "ffmpeg" "https://ffmpeg.org/releases/ffmpeg-4.3.2.tar.gz"
     ffmpegConfigureArgs
     ["fontconfig", "gmp", "gnutls", "aom", "ass", "bluray", "dav1d",
      "freetype", "lame", "opencore-amr", "openjpeg", "opus", "speex",
      "theora", "twolame", "vorbis", "wavpack", "x264", "x265", "xml2",
      "xvid", "xz"]]

/-- Commands before the package loop: `yum install` under Linux
cibuildwheel, then `pip install cmake meson ninja`. -/
def preludeCmds (sys : OS) (cibw : Bool) : List (List String) :=
  (if sys = OS.linux ∧ cibw
    then [["yum", "-y", "install", "libuuid-devel", "zlib-devel"]]
    else []) ++
  [["pip", "install", "cmake", "meson", "ninja"]]

/-- The final packaging command: one compressed archive of the `include`
and `lib` subtrees of the destination prefix directory. -/
def tarCzvfCmd (outTarball destDir : String) : List String :=
  ["tar", "czvf", outTarball, "-C", destDir, "include", "lib"]

/-- Commands after the package loop: the macOS `otool -L` listing of the
installed dylibs (a glob over the filesystem), then the `tar czvf`
packaging step. -/
def postludeCmds (sys : OS) (destDir outTarball : String)
    (fs : List String) : List (List String) :=
  (if sys = OS.darwin
    then [["otool", "-L"] ++
           fs.filter (fun q => underDir (destDir ++ "/lib") q && strHasSfx ".dylib" q)]
    else []) ++
  [tarCzvfCmd outTarball destDir]

/-- Every command the script would run (in order) when the output archive
is absent, as a function of the post-setup filesystem state. -/
def pipelineCmds (sys : OS) (cibw : Bool) (destDir outTarball : String)
    (fs : List String) : List (List String) :=
  preludeCmds sys cibw ++
    (packages sys destDir).flatMap (pkgCmds fs destDir (cmakeArgsOf sys destDir)) ++
    postludeCmds sys destDir outTarball fs

/-! ## Execution -/

/-- Filesystem effect of a successful external command.  Only the effects
observed by later decisions of the script are tracked: `curl -L -o t url`
creates `t`; `tar czvf t ...` creates `t`. -/
def applyEffect (fs : List String) (c : List String) : List String :=
  match c with
  | "curl" :: "-L" :: "-o" :: t :: _ => fs ++ [t]
  | "tar" :: "czvf" :: t :: _ => fs ++ [t]
  | _ => fs

/-- Result of running a command sequence: the commands actually started,
the final filesystem, and whether every command succeeded. -/
structure RunResult where
  executed : List (List String)
  fs : List String
  ok : Bool
deriving DecidableEq, Repr

/-- Run commands in order with `check=True` semantics: the first failing
command aborts the sequence (its command was started, the rest never run). -/
def runCmdsFS (world : List String → Bool) (fs : List String) :
    List (List String) → RunResult
  | [] => ⟨[], fs, true⟩
  | c :: cs =>
      if world c then
        let r := runCmdsFS world (applyEffect fs c) cs
        ⟨c :: r.executed, r.fs, r.ok⟩
      else ⟨[c], fs, false⟩

/-- Outcome of one invocation of the script. -/
structure InvokeResult where
  fs : List String
  exitCode : Nat
  executed : List (List String)
deriving DecidableEq, Repr

/-- One invocation of the script: usage check, directory setup, the
output-archive short-circuit, then the whole build pipeline. -/
def invoke (e : Env) (world : List String → Bool) (argv : List String)
    (fs : List String) : InvokeResult :=
  if argv.length < 2 then ⟨fs, 1, []⟩
  else
    let destDir := argv.getD 1 ""
    let fs1 := setupDirs destDir (outputDirOf e) fs
    if outputTarballOf e ∈ fs1 then ⟨fs1, 0, []⟩
    else
      let r := runCmdsFS world fs1
        (pipelineCmds e.system e.cibuildwheel destDir (outputTarballOf e) fs1)
      ⟨r.fs, if r.ok then 0 else 1, r.executed⟩

/-! ## Derived observations used by the claims -/

/-- Check that, walking a `(name, requires)` sequence left to right, every
requirement that names a member of the working set has already been seen. -/
def depsBefore (names : List String) : List String → List (String × List String) → Bool
  | _, [] => true
  | seen, (n, reqs) :: rest =>
      reqs.all (fun r => !(names.contains r) || seen.contains r) &&
        depsBefore names (n :: seen) rest

/-- A build sequence respects its `requires` relation: every package whose
requirement is itself in the sequence appears strictly after it. -/
def depOrderOK (l : List (String × List String)) : Bool :=
  depsBefore (l.map Prod.fst) [] l

/-- The extraction target directory of a `tar xf` command, if any: observes
the order in which packages are materialized and built. -/
def extractDirOf (c : List String) : Option String :=
  match c with
  | "tar" :: "xf" :: _ :: "-C" :: pth :: _ => some pth
  | _ => none

/-- The per-package extraction targets of a command sequence, in order. -/
def executedBuildDirs (cmds : List (List String)) : List String :=
  cmds.filterMap extractDirOf

/-- Whether a command creates a compressed archive (`tar czvf ...`). -/
def isCzvf (c : List String) : Bool :=
  c.take 2 == ["tar", "czvf"]

/-- Cumulative filesystem effect of a successfully executed command list. -/
def applyAll (fs : List String) (cmds : List (List String)) : List String :=
  cmds.foldl applyEffect fs

/-! ## Lemmas about the filesystem steps -/

theorem mem_removeTree {fs : List String} {d q : String} :
    q ∈ removeTree fs d ↔ q ∈ fs ∧ underDir d q = false := by
  simp [removeTree, List.mem_filter]

theorem mem_rmStep_of {fs : List String} {d q : String}
    (hq : q ∈ fs) (h : underDir d q = false) : q ∈ rmStep d fs := by
  unfold rmStep
  split
  · exact mem_removeTree.mpr ⟨hq, h⟩
  · exact hq

theorem mem_of_mem_rmStep {fs : List String} {d q : String}
    (h : q ∈ rmStep d fs) : q ∈ fs := by
  unfold rmStep at h
  split at h
  · exact (mem_removeTree.mp h).1
  · exact h

theorem not_mem_rmStep_self {fs : List String} {d q : String}
    (hd : d ∈ fs) (h : underDir d q = true) : q ∉ rmStep d fs := by
  unfold rmStep
  rw [if_pos hd]
  intro hmem
  have := (mem_removeTree.mp hmem).2
  rw [h] at this
  exact Bool.noConfusion this

theorem mem_mkStep_of {fs : List String} {d q : String} (hq : q ∈ fs) :
    q ∈ mkStep d fs := by
  unfold mkStep
  split
  · exact hq
  · exact List.mem_append_left _ hq

theorem mem_mkStep_self {fs : List String} {d : String} : d ∈ mkStep d fs := by
  unfold mkStep
  split
  · assumption
  · exact List.mem_append_right _ (List.mem_singleton.mpr rfl)

theorem not_mem_mkStep {fs : List String} {d q : String}
    (hq : q ∉ fs) (hne : q ≠ d) : q ∉ mkStep d fs := by
  unfold mkStep
  split
  · exact hq
  · intro hmem
    rcases List.mem_append.mp hmem with h | h
    · exact hq h
    · exact hne (List.mem_singleton.mp h)

theorem setupDirs_preserves {destDir outDir : String} {fs : List String} {q : String}
    (hq : q ∈ fs) (hb : underDir "build" q = false)
    (hd : underDir destDir q = false) :
    q ∈ setupDirs destDir outDir fs := by
  unfold setupDirs
  exact mem_mkStep_of (mem_mkStep_of (mem_mkStep_of
    (mem_rmStep_of (mem_rmStep_of hq hb) hd)))

theorem setupDirs_removes_dest {destDir outDir : String} {fs : List String}
    {q : String}
    (hdest : destDir ∈ fs) (hq : underDir destDir q = true)
    (hbd : underDir "build" destDir = false)
    (hdb : underDir destDir "build" = false)
    (hdo : underDir destDir outDir = false)
    (hds : underDir destDir "source" = false) :
    q ∉ setupDirs destDir outDir fs := by
  unfold setupDirs
  have hq_ne : ∀ x, underDir destDir x = false → q ≠ x := by
    intro x hx hqq
    rw [hqq, hx] at hq
    exact Bool.noConfusion hq
  have h1 : destDir ∈ rmStep "build" fs := mem_rmStep_of hdest hbd
  have h2 : q ∉ rmStep destDir (rmStep "build" fs) := not_mem_rmStep_self h1 hq
  exact not_mem_mkStep (not_mem_mkStep (not_mem_mkStep h2 (hq_ne _ hdb))
    (hq_ne _ hdo)) (hq_ne _ hds)

theorem setupDirs_empties_build {destDir outDir : String} {fs : List String}
    {q : String}
    (hb : "build" ∈ fs) (hq : underDir "build" q = true) (hqb : q ≠ "build")
    (hbo : underDir "build" outDir = false)
    (hbs : underDir "build" "source" = false) :
    q ∉ setupDirs destDir outDir fs := by
  unfold setupDirs
  have hq_ne : ∀ x, underDir "build" x = false → q ≠ x := by
    intro x hx hqq
    rw [hqq, hx] at hq
    exact Bool.noConfusion hq
  have h1 : q ∉ rmStep "build" fs := not_mem_rmStep_self hb hq
  have h2 : q ∉ rmStep destDir (rmStep "build" fs) := fun hmem =>
    h1 (mem_of_mem_rmStep hmem)
  exact not_mem_mkStep (not_mem_mkStep (not_mem_mkStep h2 hqb) (hq_ne _ hbo))
    (hq_ne _ hbs)

theorem setupDirs_creates {destDir outDir : String} {fs : List String} :
    "build" ∈ setupDirs destDir outDir fs ∧
      outDir ∈ setupDirs destDir outDir fs ∧
      "source" ∈ setupDirs destDir outDir fs := by
  unfold setupDirs
  exact ⟨mem_mkStep_of (mem_mkStep_of mem_mkStep_self),
    mem_mkStep_of mem_mkStep_self, mem_mkStep_self⟩

theorem underDir_build_outputDirOf (e : Env) :
    underDir "build" (outputDirOf e) = false := by
  unfold outputDirOf
  split <;> decide

/-! ## Lemmas about command execution -/

theorem runCmdsFS_all_ok {world : List String → Bool} :
    ∀ (cmds : List (List String)) (fs : List String),
      (∀ c ∈ cmds, world c = true) →
      runCmdsFS world fs cmds = ⟨cmds, applyAll fs cmds, true⟩
  | [], _, _ => rfl
  | c :: cs, fs, h => by
      have hc : world c = true := h c (List.mem_cons_self _ _)
      have ih := runCmdsFS_all_ok cs (applyEffect fs c)
        (fun c' hc' => h c' (List.mem_cons_of_mem _ hc'))
      simp [runCmdsFS, hc, ih, applyAll]

theorem runCmdsFS_fail_at {world : List String → Bool} :
    ∀ (pre : List (List String)) (c : List String) (post : List (List String))
      (fs : List String),
      (∀ c' ∈ pre, world c' = true) → world c = false →
      runCmdsFS world fs (pre ++ c :: post) = ⟨pre ++ [c], applyAll fs pre, false⟩
  | [], c, post, fs, _, hc => by simp [runCmdsFS, hc, applyAll]
  | p :: ps, c, post, fs, h, hc => by
      have hp : world p = true := h p (List.mem_cons_self _ _)
      have ih := runCmdsFS_fail_at ps c post (applyEffect fs p)
        (fun c' hc' => h c' (List.mem_cons_of_mem _ hc')) hc
      simp [runCmdsFS, hp, ih, applyAll]

/-! ## Claim C3 -/

/-- C3: on every invocation, before the output-archive check and before any
fetch or build command, the destination prefix tree and the build workspace
tree are removed when present, while everything outside those two trees
(in particular the source archive cache and the output directory) is
preserved, and `build`, the output directory and `source` are created when
absent; the skip branch taken when the output archive exists still returns
the post-setup filesystem, so the deletion happens even then. -/
theorem c3_dir_setup_semantics (e : Env) (w : List String → Bool)
    (argv fs : List String) (d : String)
    (hd : argv.getD 1 "" = d) (hlen : 2 ≤ argv.length)
    (hbd : underDir "build" d = false)
    (hdb : underDir d "build" = false)
    (hdo : underDir d (outputDirOf e) = false)
    (hds : underDir d "source" = false) :
    (d ∈ fs → ∀ q, underDir d q = true → q ∉ setupDirs d (outputDirOf e) fs) ∧
    ("build" ∈ fs → ∀ q, q ≠ "build" → underDir "build" q = true →
      q ∉ setupDirs d (outputDirOf e) fs) ∧
    (∀ q ∈ fs, underDir "build" q = false → underDir d q = false →
      q ∈ setupDirs d (outputDirOf e) fs) ∧
    "build" ∈ setupDirs d (outputDirOf e) fs ∧
    outputDirOf e ∈ setupDirs d (outputDirOf e) fs ∧
    "source" ∈ setupDirs d (outputDirOf e) fs ∧
    (outputTarballOf e ∈ setupDirs d (outputDirOf e) fs →
      invoke e w argv fs = ⟨setupDirs d (outputDirOf e) fs, 0, []⟩) := by
  have h2 : ¬(argv.length < 2) := Nat.not_lt.mpr hlen
  refine ⟨fun hdest q hq => setupDirs_removes_dest hdest hq hbd hdb hdo hds,
    fun hb q hqb hq =>
      setupDirs_empties_build hb hq hqb (underDir_build_outputDirOf e) (by decide),
    fun q hq hqb hqd => setupDirs_preserves hq hqb hqd,
    setupDirs_creates.1, setupDirs_creates.2.1, setupDirs_creates.2.2,
    fun htb => ?_⟩
  have hd' : argv[1]?.getD "" = d := by simpa [List.getD] using hd
  simp [invoke, h2, hd', htb]

/-- Witness for C3 at a concrete invocation. -/
theorem c3_dir_setup_semantics_witness :
    (("dest" : String) ∈ (["build", "build/x", "dest", "dest/lib",
        "dest/lib/libogg.so", "output", "source",
        "source/libogg-1.3.5.tar.gz"] : List String) → ∀ q,
      underDir "dest" q = true →
      q ∉ setupDirs "dest" (outputDirOf ⟨OS.linux, "x86_64", none, true, false⟩)
        ["build", "build/x", "dest", "dest/lib", "dest/lib/libogg.so",
         "output", "source", "source/libogg-1.3.5.tar.gz"]) ∧
    (("build" : String) ∈ (["build", "build/x", "dest", "dest/lib",
        "dest/lib/libogg.so", "output", "source",
        "source/libogg-1.3.5.tar.gz"] : List String) → ∀ q, q ≠ "build" →
      underDir "build" q = true →
      q ∉ setupDirs "dest" (outputDirOf ⟨OS.linux, "x86_64", none, true, false⟩)
        ["build", "build/x", "dest", "dest/lib", "dest/lib/libogg.so",
         "output", "source", "source/libogg-1.3.5.tar.gz"]) ∧
    (∀ q ∈ (["build", "build/x", "dest", "dest/lib", "dest/lib/libogg.so",
        "output", "source", "source/libogg-1.3.5.tar.gz"] : List String),
      underDir "build" q = false → underDir "dest" q = false →
      q ∈ setupDirs "dest" (outputDirOf ⟨OS.linux, "x86_64", none, true, false⟩)
        ["build", "build/x", "dest", "dest/lib", "dest/lib/libogg.so",
         "output", "source", "source/libogg-1.3.5.tar.gz"]) ∧
    ("build" : String) ∈ setupDirs "dest"
      (outputDirOf ⟨OS.linux, "x86_64", none, true, false⟩)
      ["build", "build/x", "dest", "dest/lib", "dest/lib/libogg.so",
       "output", "source", "source/libogg-1.3.5.tar.gz"] ∧
    outputDirOf ⟨OS.linux, "x86_64", none, true, false⟩ ∈ setupDirs "dest"
      (outputDirOf ⟨OS.linux, "x86_64", none, true, false⟩)
      ["build", "build/x", "dest", "dest/lib", "dest/lib/libogg.so",
       "output", "source", "source/libogg-1.3.5.tar.gz"] ∧
    ("source" : String) ∈ setupDirs "dest"
      (outputDirOf ⟨OS.linux, "x86_64", none, true, false⟩)
      ["build", "build/x", "dest", "dest/lib", "dest/lib/libogg.so",
       "output", "source", "source/libogg-1.3.5.tar.gz"] ∧
    (outputTarballOf ⟨OS.linux, "x86_64", none, true, false⟩ ∈ setupDirs "dest"
        (outputDirOf ⟨OS.linux, "x86_64", none, true, false⟩)
        ["build", "build/x", "dest", "dest/lib", "dest/lib/libogg.so",
         "output", "source", "source/libogg-1.3.5.tar.gz"] →
      invoke ⟨OS.linux, "x86_64", none, true, false⟩ (fun _ => true)
        ["build-ffmpeg.py", "dest"]
        ["build", "build/x", "dest", "dest/lib", "dest/lib/libogg.so",
         "output", "source", "source/libogg-1.3.5.tar.gz"] =
        ⟨setupDirs "dest" (outputDirOf ⟨OS.linux, "x86_64", none, true, false⟩)
          ["build", "build/x", "dest", "dest/lib", "dest/lib/libogg.so",
           "output", "source", "source/libogg-1.3.5.tar.gz"], 0, []⟩) :=
  c3_dir_setup_semantics ⟨OS.linux, "x86_64", none, true, false⟩ (fun _ => true)
    ["build-ffmpeg.py", "dest"]
    ["build", "build/x", "dest", "dest/lib", "dest/lib/libogg.so",
     "output", "source", "source/libogg-1.3.5.tar.gz"] "dest"
    (by decide) (by decide) (by decide) (by decide) (by decide) (by decide)

/-! ## Claim C1 -/

/-- C1 as stated is false: with the final output archive already present,
the invocation indeed runs no command and exits zero, but it does not
leave the filesystem unchanged — the file installed under the destination
prefix has been deleted by the time the process exits. -/
theorem c1_counterexample :
    (invoke ⟨OS.linux, "x86_64", none, true, false⟩ (fun _ => true)
        ["build-ffmpeg.py", "dest"]
        ["build", "dest", "dest/lib", "dest/lib/libogg.so", "output",
         "output/ffmpeg-manylinux_x86_64.tar.gz", "source"]).exitCode = 0 ∧
    (invoke ⟨OS.linux, "x86_64", none, true, false⟩ (fun _ => true)
        ["build-ffmpeg.py", "dest"]
        ["build", "dest", "dest/lib", "dest/lib/libogg.so", "output",
         "output/ffmpeg-manylinux_x86_64.tar.gz", "source"]).executed = [] ∧
    "dest/lib/libogg.so" ∈ (["build", "dest", "dest/lib", "dest/lib/libogg.so",
        "output", "output/ffmpeg-manylinux_x86_64.tar.gz", "source"] :
        List String) ∧
    "dest/lib/libogg.so" ∉
      (invoke ⟨OS.linux, "x86_64", none, true, false⟩ (fun _ => true)
        ["build-ffmpeg.py", "dest"]
        ["build", "dest", "dest/lib", "dest/lib/libogg.so", "output",
         "output/ffmpeg-manylinux_x86_64.tar.gz", "source"]).fs := by decide

/-- C1 (amended): when the final output archive exists at the computed
output path, the invocation performs no fetch and no build (no external
command at all) and exits zero, but the filesystem is not left unchanged:
the result is exactly the post-directory-setup state, in which the build
workspace and the destination prefix have been removed and missing
directories created. -/
theorem c1_amended_skip_runs_nothing (e : Env) (w : List String → Bool)
    (argv fs : List String) (hlen : 2 ≤ argv.length)
    (htb : outputTarballOf e ∈ setupDirs (argv.getD 1 "") (outputDirOf e) fs) :
    invoke e w argv fs =
      ⟨setupDirs (argv.getD 1 "") (outputDirOf e) fs, 0, []⟩ := by
  have h2 : ¬(argv.length < 2) := Nat.not_lt.mpr hlen
  have htb' : outputTarballOf e ∈ setupDirs (argv[1]?.getD "") (outputDirOf e) fs := by
    simpa [List.getD] using htb
  simp [invoke, h2, htb', List.getD]

/-- Witness for the amended C1. -/
theorem c1_amended_skip_runs_nothing_witness :
    invoke ⟨OS.linux, "x86_64", none, true, false⟩ (fun _ => true)
        ["build-ffmpeg.py", "dest"]
        ["build", "dest", "dest/lib", "output",
         "output/ffmpeg-manylinux_x86_64.tar.gz", "source"] =
      ⟨setupDirs ((["build-ffmpeg.py", "dest"] : List String).getD 1 "")
        (outputDirOf ⟨OS.linux, "x86_64", none, true, false⟩)
        ["build", "dest", "dest/lib", "output",
         "output/ffmpeg-manylinux_x86_64.tar.gz", "source"], 0, []⟩ :=
  c1_amended_skip_runs_nothing ⟨OS.linux, "x86_64", none, true, false⟩
    (fun _ => true) ["build-ffmpeg.py", "dest"]
    ["build", "dest", "dest/lib", "output",
     "output/ffmpeg-manylinux_x86_64.tar.gz", "source"]
    (by decide) (by decide)

/-! ## Claim C2 -/

/-- C2 as stated is false: a file installed under the destination prefix by
a previous invocation (here `dest/lib/libogg.so`, with the ogg source
archive already cached) does not make a repeated invocation skip that
package — the ogg package is extracted and rebuilt, and the marker itself
is deleted. -/
theorem c2_counterexample :
    "dest/lib/libogg.so" ∈ (["build", "dest", "dest/lib",
        "dest/lib/libogg.so", "output", "source",
        "source/libogg-1.3.5.tar.gz"] : List String) ∧
    ["tar", "xf", "source/libogg-1.3.5.tar.gz", "-C", "build/ogg",
        "--strip-components", "1"] ∈
      (invoke ⟨OS.linux, "x86_64", none, true, false⟩ (fun _ => true)
        ["build-ffmpeg.py", "dest"]
        ["build", "dest", "dest/lib", "dest/lib/libogg.so", "output",
         "source", "source/libogg-1.3.5.tar.gz"]).executed ∧
    "dest/lib/libogg.so" ∉
      (invoke ⟨OS.linux, "x86_64", none, true, false⟩ (fun _ => true)
        ["build-ffmpeg.py", "dest"]
        ["build", "dest", "dest/lib", "dest/lib/libogg.so", "output",
         "source", "source/libogg-1.3.5.tar.gz"]).fs := by decide

/-- C2 (amended): there is no per-package install marker: directory setup
deletes every path under the destination prefix at the start of each
invocation, and whenever the output archive is absent the full package
command sequence is executed again; the only skip the script performs is
the whole-pipeline output-archive check. -/
theorem c2_amended_no_package_skip (e : Env) (argv fs : List String)
    (d q : String)
    (hd : argv.getD 1 "" = d) (hlen : 2 ≤ argv.length)
    (hdest : d ∈ fs) (hq : underDir d q = true)
    (hbd : underDir "build" d = false)
    (hdb : underDir d "build" = false)
    (hdo : underDir d (outputDirOf e) = false)
    (hds : underDir d "source" = false)
    (htb : outputTarballOf e ∉ setupDirs d (outputDirOf e) fs) :
    q ∉ setupDirs d (outputDirOf e) fs ∧
    (invoke e (fun _ => true) argv fs).executed =
      pipelineCmds e.system e.cibuildwheel d (outputTarballOf e)
        (setupDirs d (outputDirOf e) fs) := by
  have h2 : ¬(argv.length < 2) := Nat.not_lt.mpr hlen
  have hd' : argv[1]?.getD "" = d := by simpa [List.getD] using hd
  refine ⟨setupDirs_removes_dest hdest hq hbd hdb hdo hds, ?_⟩
  simp [invoke, h2, hd', htb,
    runCmdsFS_all_ok _ _ (fun _ _ => rfl)]

/-- Witness for the amended C2. -/
theorem c2_amended_no_package_skip_witness :
    "dest/lib/libogg.so" ∉ setupDirs "dest"
      (outputDirOf ⟨OS.linux, "x86_64", none, true, false⟩)
      ["build", "dest", "dest/lib", "dest/lib/libogg.so", "output",
       "source", "source/libogg-1.3.5.tar.gz"] ∧
    (invoke ⟨OS.linux, "x86_64", none, true, false⟩ (fun _ => true)
        ["build-ffmpeg.py", "dest"]
        ["build", "dest", "dest/lib", "dest/lib/libogg.so", "output",
         "source", "source/libogg-1.3.5.tar.gz"]).executed =
      pipelineCmds OS.linux false "dest"
        (outputTarballOf ⟨OS.linux, "x86_64", none, true, false⟩)
        (setupDirs "dest" (outputDirOf ⟨OS.linux, "x86_64", none, true, false⟩)
          ["build", "dest", "dest/lib", "dest/lib/libogg.so", "output",
           "source", "source/libogg-1.3.5.tar.gz"]) :=
  c2_amended_no_package_skip ⟨OS.linux, "x86_64", none, true, false⟩
    ["build-ffmpeg.py", "dest"]
    ["build", "dest", "dest/lib", "dest/lib/libogg.so", "output",
     "source", "source/libogg-1.3.5.tar.gz"] "dest" "dest/lib/libogg.so"
    (by decide) (by decide) (by decide) (by decide) (by decide) (by decide)
    (by decide) (by decide) (by decide)

/-! ## Claim C5 -/

/-- C5: when one sub-step command fails (all commands before it having
succeeded), the whole run exits non-zero and the executed commands are
exactly the successful ones followed by the failing one — nothing after
the failing command, in particular no sub-step of any later package, is
ever started. -/
theorem c5_substep_failure_aborts (e : Env) (w : List String → Bool)
    (argv fs : List String) (d : String) (pre post : List (List String))
    (c : List String)
    (hd : argv.getD 1 "" = d) (hlen : 2 ≤ argv.length)
    (htb : outputTarballOf e ∉ setupDirs d (outputDirOf e) fs)
    (hsplit : pipelineCmds e.system e.cibuildwheel d (outputTarballOf e)
        (setupDirs d (outputDirOf e) fs) = pre ++ c :: post)
    (hpre : ∀ c' ∈ pre, w c' = true) (hc : w c = false) :
    (invoke e w argv fs).exitCode = 1 ∧
    (invoke e w argv fs).executed = pre ++ [c] := by
  have h2 : ¬(argv.length < 2) := Nat.not_lt.mpr hlen
  have hd' : argv[1]?.getD "" = d := by simpa [List.getD] using hd
  simp [invoke, h2, hd', htb, hsplit, runCmdsFS_fail_at pre c post _ hpre hc]

/-- Witness for C5: a failing first command (the `pip install`) leaves it
as the only executed command and the exit code non-zero. -/
theorem c5_substep_failure_aborts_witness :
    (invoke ⟨OS.linux, "x86_64", none, true, false⟩ (fun _ => false)
        ["build-ffmpeg.py", "dest"] []).exitCode = 1 ∧
    (invoke ⟨OS.linux, "x86_64", none, true, false⟩ (fun _ => false)
        ["build-ffmpeg.py", "dest"] []).executed =
      [] ++ [["pip", "install", "cmake", "meson", "ninja"]] :=
  c5_substep_failure_aborts ⟨OS.linux, "x86_64", none, true, false⟩
    (fun _ => false) ["build-ffmpeg.py", "dest"] [] "dest" []
    (List.tail (pipelineCmds OS.linux false "dest"
      (outputTarballOf ⟨OS.linux, "x86_64", none, true, false⟩)
      (setupDirs "dest" (outputDirOf ⟨OS.linux, "x86_64", none, true, false⟩) [])))
    ["pip", "install", "cmake", "meson", "ninja"]
    (by decide) (by decide) (by decide) (by rfl) (by simp) (by rfl)

/-! ## Claim C4 -/

theorem extractDirOf_buildCmds (d : String) (ca : List String) (p : Pkg) :
    ∀ c ∈ buildCmds d ca p, extractDirOf c = none := by
  rcases p with ⟨n, u, s, pre, k, r⟩
  cases k with
  | autotools args =>
      intro c hc
      simp only [buildCmds, List.mem_cons, List.not_mem_nil, or_false] at hc
      rcases hc with rfl | rfl | rfl <;> rfl
  | cmake srcArg extra pm =>
      intro c hc
      simp only [buildCmds, List.mem_cons, List.not_mem_nil, or_false] at hc
      rcases hc with rfl | rfl | rfl
      · rfl
      · cases pm <;> rfl
      · rfl
  | meson =>
      intro c hc
      simp only [buildCmds, List.mem_cons, List.not_mem_nil, or_false] at hc
      rcases hc with rfl | rfl | rfl <;> rfl

theorem filterMap_extractDirOf_pkgCmds (fs : List String) (d : String)
    (ca : List String) (p : Pkg)
    (hpre : p.preCmds.filterMap extractDirOf = []) :
    (pkgCmds fs d ca p).filterMap extractDirOf = ["build/" ++ p.name] := by
  have hb : (buildCmds d ca p).filterMap extractDirOf = [] :=
    List.filterMap_eq_nil_iff.mpr (extractDirOf_buildCmds d ca p)
  unfold pkgCmds extractCmds
  rw [List.filterMap_append, List.filterMap_append, List.filterMap_append,
    List.filterMap_append, hb, hpre]
  split <;> split <;> rfl

theorem filterMap_extractDirOf_flatMap (fs : List String) (d : String)
    (ca : List String) :
    ∀ ps : List Pkg, (∀ p ∈ ps, p.preCmds.filterMap extractDirOf = []) →
      (ps.flatMap (pkgCmds fs d ca)).filterMap extractDirOf =
        ps.map (fun p => "build/" ++ p.name)
  | [], _ => by simp
  | p :: ps, h => by
      have h1 := filterMap_extractDirOf_pkgCmds fs d ca p
        (h p (List.mem_cons_self _ _))
      have ih := filterMap_extractDirOf_flatMap fs d ca ps
        (fun q hq => h q (List.mem_cons_of_mem _ hq))
      simp [List.filterMap_append, h1, ih]

theorem filterMap_extractDirOf_preludeCmds (sys : OS) (cibw : Bool) :
    (preludeCmds sys cibw).filterMap extractDirOf = [] := by
  unfold preludeCmds
  split <;> rfl

theorem filterMap_extractDirOf_postludeCmds (sys : OS) (d tb : String)
    (fs : List String) :
    (postludeCmds sys d tb fs).filterMap extractDirOf = [] := by
  unfold postludeCmds tarCzvfCmd
  split <;> rfl

theorem packages_preCmds_clean (sys : OS) (d : String) :
    ∀ p ∈ packages sys d, p.preCmds.filterMap extractDirOf = [] := by
  have hall : (packages sys d).all
      (fun p => p.preCmds.filterMap extractDirOf == []) = true := by
    cases sys <;> rfl
  intro p hp
  exact eq_of_beq (List.all_eq_true.mp hall p hp)

/-- C4: the dependency comments of the source are respected — in the
executed build sequence every package appears strictly after every package
it requires that the script itself builds — and the executed extraction
order is exactly the declared textual order of the script, so packages
with no ordering constraint keep their declared relative order. -/
theorem c4_build_order (sys : OS) (cibw : Bool) (d tb : String)
    (fs : List String) :
    depOrderOK ((packages sys d).map (fun p => (p.name, p.requires))) = true ∧
    executedBuildDirs (pipelineCmds sys cibw d tb fs) =
      (packages sys d).map (fun p => "build/" ++ p.name) := by
  constructor
  · cases sys <;> rfl
  · unfold executedBuildDirs pipelineCmds
    rw [List.filterMap_append, List.filterMap_append,
      filterMap_extractDirOf_preludeCmds,
      filterMap_extractDirOf_postludeCmds,
      filterMap_extractDirOf_flatMap fs d (cmakeArgsOf sys d) (packages sys d)
        (packages_preCmds_clean sys d)]
    simp

/-! ## Claim C8 -/

/-- C8: for every autotools package of the script, the build phase runs
exactly three commands in order: `./configure` with the package's build
arguments followed by the fixed flags `--disable-static`,
`--enable-shared` and `--prefix=<destination>`, then the parallel compile
`make -j`, then `make install`. -/
theorem c8_autotools_three_steps (sys : OS) (d : String) (ca : List String)
    (p : Pkg) (args : List String)
    (_hp : p ∈ packages sys d) (hk : p.kind = BuildKind.autotools args) :
    buildCmds d ca p =
      [["./configure"] ++ args ++
        ["--disable-static", "--enable-shared", "--prefix=" ++ d],
       ["make", "-j"],
       ["make", "install"]] := by
  unfold buildCmds
  rw [hk]

/-- Witness for C8 at the ogg package. -/
theorem c8_autotools_three_steps_witness :
    buildCmds "dest" (cmakeArgsOf OS.linux "dest")
      (autoPkg "ogg" "http://downloads.xiph.org/releases/ogg/libogg-1.3.5.tar.gz"
        [] []) =
      [["./configure"] ++ [] ++
        ["--disable-static", "--enable-shared", "--prefix=" ++ "dest"],
       ["make", "-j"],
       ["make", "install"]] :=
  c8_autotools_three_steps OS.linux "dest" (cmakeArgsOf OS.linux "dest")
    (autoPkg "ogg" "http://downloads.xiph.org/releases/ogg/libogg-1.3.5.tar.gz"
      [] []) []
    (by decide) (by rfl)

/-! ## Claim C10 -/

/-- C10: when the source archive is absent and the download command fails,
the package's command sequence aborts at the `curl` command itself: the
error is surfaced (`ok = false`, which the invocation maps to a non-zero
exit), no further command — in particular no second download attempt —
runs, the filesystem is unchanged so the archive is
still absent, and the extract step of a re-run against that filesystem
issues the download again.  The download tool itself is an external
collaborator; per the spec's fetch-failure taxonomy a failed download
leaves no file behind, which is how `runCmdsFS` models failing commands. -/
theorem c10_fetch_failure (w : List String → Bool) (fs : List String)
    (d : String) (ca : List String) (p : Pkg)
    (habs : tarballPath p.url ∉ fs) (hfail : w (curlCmd p.url) = false) :
    runCmdsFS w fs (pkgCmds fs d ca p) = ⟨[curlCmd p.url], fs, false⟩ ∧
    tarballPath p.url ∉ fs ∧
    curlCmd p.url ∈ pkgCmds fs d ca p := by
  obtain ⟨rest, hrest⟩ : ∃ rest, pkgCmds fs d ca p = curlCmd p.url :: rest :=
    ⟨_, by unfold pkgCmds extractCmds; rw [if_neg habs]; rfl⟩
  refine ⟨?_, habs, ?_⟩
  · rw [hrest]
    simp [runCmdsFS, hfail]
  · rw [hrest]
    exact List.mem_cons_self _ _

/-- Witness for C10 at the ogg package with an empty source cache. -/
theorem c10_fetch_failure_witness :
    runCmdsFS
        (fun c => !(c == curlCmd "http://downloads.xiph.org/releases/ogg/libogg-1.3.5.tar.gz"))
        []
        (pkgCmds [] "dest" (cmakeArgsOf OS.linux "dest")
          (autoPkg "ogg" "http://downloads.xiph.org/releases/ogg/libogg-1.3.5.tar.gz" [] [])) =
      ⟨[curlCmd "http://downloads.xiph.org/releases/ogg/libogg-1.3.5.tar.gz"],
        [], false⟩ ∧
    tarballPath "http://downloads.xiph.org/releases/ogg/libogg-1.3.5.tar.gz" ∉
      ([] : List String) ∧
    curlCmd "http://downloads.xiph.org/releases/ogg/libogg-1.3.5.tar.gz" ∈
      pkgCmds [] "dest" (cmakeArgsOf OS.linux "dest")
        (autoPkg "ogg" "http://downloads.xiph.org/releases/ogg/libogg-1.3.5.tar.gz" [] []) :=
  c10_fetch_failure
    (fun c => !(c == curlCmd "http://downloads.xiph.org/releases/ogg/libogg-1.3.5.tar.gz"))
    [] "dest" (cmakeArgsOf OS.linux "dest")
    (autoPkg "ogg" "http://downloads.xiph.org/releases/ogg/libogg-1.3.5.tar.gz" [] [])
    (by decide) (by decide)

/-! ## Claim C9 -/

theorem head_buildCmds_ne_curl (d : String) (ca : List String) (p : Pkg) :
    ∀ c ∈ buildCmds d ca p, c.head? ≠ some "curl" := by
  rcases p with ⟨n, u, s, pre, k, r⟩
  cases k with
  | autotools args =>
      intro c hc
      simp only [buildCmds, List.mem_cons, List.not_mem_nil, or_false] at hc
      rcases hc with rfl | rfl | rfl <;> simp
  | cmake srcArg extra pm =>
      intro c hc
      simp only [buildCmds, List.mem_cons, List.not_mem_nil, or_false] at hc
      rcases hc with rfl | rfl | rfl
      · simp
      · cases pm <;> simp
      · simp
  | meson =>
      intro c hc
      simp only [buildCmds, List.mem_cons, List.not_mem_nil, or_false] at hc
      rcases hc with rfl | rfl | rfl <;> simp

theorem curl_mem_pkgCmds (fs : List String) (d : String) (ca : List String)
    (p : Pkg) (c : List String)
    (hpre : ∀ c' ∈ p.preCmds, c'.head? ≠ some "curl")
    (hc : c ∈ pkgCmds fs d ca p) (hcurl : c.head? = some "curl") :
    c = curlCmd p.url ∧ tarballPath p.url ∉ fs := by
  unfold pkgCmds extractCmds at hc
  rcases List.mem_append.mp hc with h | h
  · rcases List.mem_append.mp h with h | h
    · rcases List.mem_append.mp h with h | h
      · rcases List.mem_append.mp h with h | h
        · by_cases htb : tarballPath p.url ∈ fs
          · rw [if_pos htb] at h
            exact absurd h (List.not_mem_nil _)
          · rw [if_neg htb] at h
            exact ⟨List.mem_singleton.mp h, htb⟩
        · rw [List.mem_singleton.mp h] at hcurl
          simp at hcurl
      · by_cases hpc : ("patches/" ++ p.name ++ ".patch") ∈ fs
        · rw [if_pos hpc] at h
          rw [List.mem_singleton.mp h] at hcurl
          simp at hcurl
        · rw [if_neg hpc] at h
          exact absurd h (List.not_mem_nil _)
    · exact absurd hcurl (hpre c h)
  · exact absurd hcurl (head_buildCmds_ne_curl d ca p c h)

theorem head_preludeCmds_ne_curl (sys : OS) (cibw : Bool) :
    ∀ c ∈ preludeCmds sys cibw, c.head? ≠ some "curl" := by
  intro c hc
  unfold preludeCmds at hc
  split at hc <;>
    simp only [List.mem_cons, List.not_mem_nil, or_false, List.nil_append,
      List.cons_append] at hc
  · rcases hc with rfl | rfl <;> simp
  · rw [hc]
    simp

theorem head_postludeCmds_ne_curl (sys : OS) (d tb : String)
    (fs : List String) :
    ∀ c ∈ postludeCmds sys d tb fs, c.head? ≠ some "curl" := by
  intro c hc
  unfold postludeCmds tarCzvfCmd at hc
  split at hc <;>
    simp only [List.mem_cons, List.not_mem_nil, or_false, List.nil_append,
      List.cons_append] at hc
  · rcases hc with rfl | rfl <;> simp
  · rw [hc]
    simp

theorem packages_preCmds_no_curl (sys : OS) (d : String) :
    ∀ p ∈ packages sys d, ∀ c ∈ p.preCmds, c.head? ≠ some "curl" := by
  have hall : (packages sys d).all
      (fun p => p.preCmds.all (fun c => !(c.head? == some "curl"))) = true := by
    cases sys <;> rfl
  intro p hp c hc
  have h1 := List.all_eq_true.mp (List.all_eq_true.mp hall p hp) c hc
  simpa using h1

/-- C9: a download command appears in the pipeline only for a package whose
archive — named by the last path segment of its url, inside the persistent
`source` directory — is absent from the filesystem; every path outside the
build workspace and the destination prefix (in particular everything under
`source`) survives directory setup; hence an already-fetched archive is
never downloaded again by a later invocation. -/
theorem c9_download_only_when_absent (sys : OS) (cibw : Bool)
    (d tb o : String) (fs : List String) :
    (∀ c ∈ pipelineCmds sys cibw d tb fs, c.head? = some "curl" →
      ∃ u, c = curlCmd u ∧ tarballPath u ∉ fs) ∧
    (∀ q ∈ fs, underDir "build" q = false → underDir d q = false →
      q ∈ setupDirs d o fs) ∧
    (∀ u, tarballPath u ∈ fs → curlCmd u ∉ pipelineCmds sys cibw d tb fs) := by
  have part1 : ∀ c ∈ pipelineCmds sys cibw d tb fs, c.head? = some "curl" →
      ∃ u, c = curlCmd u ∧ tarballPath u ∉ fs := by
    intro c hc hcurl
    unfold pipelineCmds at hc
    rcases List.mem_append.mp hc with h | h
    · rcases List.mem_append.mp h with h | h
      · exact absurd hcurl (head_preludeCmds_ne_curl sys cibw c h)
      · obtain ⟨p, hp, hcp⟩ := List.mem_flatMap.mp h
        obtain ⟨he, habs⟩ := curl_mem_pkgCmds fs d (cmakeArgsOf sys d) p c
          (packages_preCmds_no_curl sys d p hp) hcp hcurl
        exact ⟨p.url, he, habs⟩
    · exact absurd hcurl (head_postludeCmds_ne_curl sys d tb fs c h)
  refine ⟨part1, fun q hq hb hd => setupDirs_preserves hq hb hd, ?_⟩
  intro u hu hmem
  obtain ⟨u', he, habs⟩ := part1 _ hmem rfl
  have : u = u' := by
    simpa [curlCmd] using congrArg (fun l => l.getLast? ) he
  rw [this] at hu
  exact habs hu

/-- Witness for C9: with the ogg archive already cached, no invocation
downloads it. -/
theorem c9_download_only_when_absent_witness :
    curlCmd "http://downloads.xiph.org/releases/ogg/libogg-1.3.5.tar.gz" ∉
      pipelineCmds OS.linux false "dest" "output/ffmpeg-manylinux_x86_64.tar.gz"
        ["source/libogg-1.3.5.tar.gz"] :=
  (c9_download_only_when_absent OS.linux false "dest"
      "output/ffmpeg-manylinux_x86_64.tar.gz" "output"
      ["source/libogg-1.3.5.tar.gz"]).2.2
    "http://downloads.xiph.org/releases/ogg/libogg-1.3.5.tar.gz" (by decide)

/-! ## Claim C6 -/

theorem isCzvf_buildCmds (d : String) (ca : List String) (p : Pkg) :
    ∀ c ∈ buildCmds d ca p, isCzvf c = false := by
  rcases p with ⟨n, u, s, pre, k, r⟩
  cases k with
  | autotools args =>
      intro c hc
      simp only [buildCmds, List.mem_cons, List.not_mem_nil, or_false] at hc
      rcases hc with rfl | rfl | rfl <;> rfl
  | cmake srcArg extra pm =>
      intro c hc
      simp only [buildCmds, List.mem_cons, List.not_mem_nil, or_false] at hc
      rcases hc with rfl | rfl | rfl
      · rfl
      · cases pm <;> rfl
      · rfl
  | meson =>
      intro c hc
      simp only [buildCmds, List.mem_cons, List.not_mem_nil, or_false] at hc
      rcases hc with rfl | rfl | rfl <;> rfl

theorem isCzvf_pkgCmds (fs : List String) (d : String) (ca : List String)
    (p : Pkg) (hpre : ∀ c ∈ p.preCmds, isCzvf c = false) :
    ∀ c ∈ pkgCmds fs d ca p, isCzvf c = false := by
  intro c hc
  unfold pkgCmds extractCmds at hc
  rcases List.mem_append.mp hc with h | h
  · rcases List.mem_append.mp h with h | h
    · rcases List.mem_append.mp h with h | h
      · rcases List.mem_append.mp h with h | h
        · split at h
          · exact absurd h (List.not_mem_nil _)
          · rw [List.mem_singleton.mp h]
            rfl
        · rw [List.mem_singleton.mp h]
          rfl
      · split at h
        · rw [List.mem_singleton.mp h]
          rfl
        · exact absurd h (List.not_mem_nil _)
    · exact hpre c h
  · exact isCzvf_buildCmds d ca p c h

theorem packages_preCmds_no_czvf (sys : OS) (d : String) :
    ∀ p ∈ packages sys d, ∀ c ∈ p.preCmds, isCzvf c = false := by
  have hall : (packages sys d).all
      (fun p => p.preCmds.all (fun c => !(isCzvf c))) = true := by
    cases sys <;> rfl
  intro p hp c hc
  have h1 := List.all_eq_true.mp (List.all_eq_true.mp hall p hp) c hc
  simpa using h1

/-- C6 (amended): the packaging step is the last command of the pipeline,
it is the only archive-creation (`tar czvf`) command in the whole run, and
the archived members are exactly the `include` and `lib` subtrees of the
destination prefix — `bin` is not archived. -/
theorem c6_single_archive_include_lib (sys : OS) (cibw : Bool)
    (d tb : String) (fs : List String) :
    (pipelineCmds sys cibw d tb fs).filter isCzvf = [tarCzvfCmd tb d] ∧
    (pipelineCmds sys cibw d tb fs).getLast? = some (tarCzvfCmd tb d) ∧
    tarCzvfCmd tb d = ["tar", "czvf", tb, "-C", d, "include", "lib"] ∧
    (tarCzvfCmd tb d).drop 5 = ["include", "lib"] := by
  have hpre0 : (preludeCmds sys cibw).filter isCzvf = [] := by
    unfold preludeCmds
    split <;> rfl
  have hmid : ((packages sys d).flatMap
      (pkgCmds fs d (cmakeArgsOf sys d))).filter isCzvf = [] := by
    refine List.filter_eq_nil_iff.mpr ?_
    intro c hc
    obtain ⟨p, hp, hcp⟩ := List.mem_flatMap.mp hc
    have h1 := isCzvf_pkgCmds fs d (cmakeArgsOf sys d) p
      (packages_preCmds_no_czvf sys d p hp) c hcp
    simp [h1]
  have hpost : (postludeCmds sys d tb fs).filter isCzvf = [tarCzvfCmd tb d] := by
    unfold postludeCmds
    split <;> rfl
  refine ⟨?_, ?_, rfl, rfl⟩
  · unfold pipelineCmds
    rw [List.filter_append, List.filter_append, hpre0, hmid, hpost]
    rfl
  · unfold pipelineCmds postludeCmds
    rw [← List.append_assoc]
    exact List.getLast?_concat _

/-- C6 as stated is false: the packaging command of a concrete run archives
only `include` and `lib`; `bin` is not among the archived subtrees. -/
theorem c6_counterexample :
    (pipelineCmds OS.linux false "dest" "output/out.tar.gz" []).filter isCzvf =
      [["tar", "czvf", "output/out.tar.gz", "-C", "dest", "include", "lib"]] ∧
    "bin" ∉ (["tar", "czvf", "output/out.tar.gz", "-C", "dest", "include",
      "lib"] : List String) := by decide

/-! ## Claim C7 -/

/-- C7 (amended): the CLI accepts only the positional destination-prefix
argument — anything after it is ignored, so there is no build-stage flag
and no GPL toggle; a missing positional argument exits 1; the
GPL-licensed packages x264, x265 and xvid are always in the build
sequence, and the ffmpeg configure step always passes `--enable-gpl`. -/
theorem c7_cli_has_no_flags (e : Env) (w : List String → Bool)
    (fs : List String) (d : String) (extra : List String) :
    invoke e w ("build-ffmpeg.py" :: d :: extra) fs =
      invoke e w ["build-ffmpeg.py", d] fs ∧
    invoke e w ["build-ffmpeg.py"] fs = ⟨fs, 1, []⟩ ∧
    ((packages e.system d).map Pkg.name).contains "x264" = true ∧
    ((packages e.system d).map Pkg.name).contains "x265" = true ∧
    ((packages e.system d).map Pkg.name).contains "xvid" = true ∧
    "--enable-gpl" ∈ ffmpegConfigureArgs := by
  rcases e with ⟨sys, machine, archflags, ptr64, cibw⟩
  refine ⟨rfl, by simp [invoke], ?_, ?_, ?_, by decide⟩ <;> cases sys <;> rfl

set_option maxRecDepth 8192 in
/-- C7 as stated is false: passing a stage-selection flag and a
GPL-disabling flag changes nothing — the invocation is identical to one
without them, and the GPL-licensed x264 package is still fetched and
built while ffmpeg is configured with `--enable-gpl`. -/
theorem c7_counterexample :
    invoke ⟨OS.linux, "x86_64", none, true, false⟩ (fun _ => true)
        ["build-ffmpeg.py", "dest", "--stage", "2", "--disable-gpl"] [] =
      invoke ⟨OS.linux, "x86_64", none, true, false⟩ (fun _ => true)
        ["build-ffmpeg.py", "dest"] [] ∧
    ["tar", "xf", "source/x264-master.tar.bz2", "-C", "build/x264",
        "--strip-components", "1"] ∈
      (invoke ⟨OS.linux, "x86_64", none, true, false⟩ (fun _ => true)
        ["build-ffmpeg.py", "dest", "--stage", "2", "--disable-gpl"] []).executed ∧
    "--enable-gpl" ∈ ffmpegConfigureArgs := by decide

end BuildFFmpeg
